import Mathlib

/-!
Verification of the runner-manager configuration model against its
specification.

The definitions below are a shallow embedding of
`runner_manager/models/settings.py` (the `Settings` pydantic model, its
`app_install` property, its `github_auth_strategy` method and the
`customise_sources` ordering of settings sources) together with the parts
of the GCP backend exercised by `tests/unit/backend/test_gcp.py`
(`_sanitize_label_value` and `setup_labels`), which are modelled from the
specification because their module is not part of this excerpt.

Python `timedelta` values are embedded as a number of seconds; Python
truthiness is made explicit; pydantic `SecretStr` is a wrapper around a
string whose truthiness is non-emptiness (its `len`).
-/

/-- pydantic `SecretStr`: wraps a string, hides it when printed. -/
structure SecretStr where
  secret : String
deriving DecidableEq, Repr

def SecretStr.get_secret_value (s : SecretStr) : String := s.secret

/-- Python truthiness of a `SecretStr`: it defines `len`, so an empty
secret is falsy. -/
def SecretStr.truthy (s : SecretStr) : Bool := s.secret != ""

/-- The Python annotation `int | str` on `github_app_id`. -/
inductive IntOrStr where
  | int : Int → IntOrStr
  | str : String → IntOrStr
deriving DecidableEq, Repr

/-- Python truthiness: `0` and `""` are falsy. -/
def IntOrStr.truthy : IntOrStr → Bool
  | .int n => n != 0
  | .str s => s != ""

/-- Python truthiness of `Optional[SecretStr]`: `None` is falsy, a
`SecretStr` is truthy iff non-empty. -/
def optSecretTruthy : Option SecretStr → Bool
  | none => false
  | some s => s.truthy

/-- The `Literal["INFO", "WARNING", "DEBUG", "ERROR"]` type of `log_level`. -/
inductive LogLevel where
  | INFO | WARNING | DEBUG | ERROR
deriving DecidableEq, Repr

/-- Seconds in `timedelta(minutes=n)`. -/
def tdMinutes (n : Nat) : Nat := n * 60

/-- Seconds in `timedelta(hours=n)`. -/
def tdHours (n : Nat) : Nat := n * 3600

/-- A runner group as referenced by `Settings.runner_groups`
(`BaseRunnerGroup`): a named pool with an organization and a label set. -/
structure BaseRunnerGroup where
  name : String
  organization : String
  labels : List String
deriving DecidableEq, Repr

/-- The `Settings` model of `runner_manager/models/settings.py`, with the
field defaults of the source. -/
structure Settings where
  name : String := "runner-manager"
  redis_om_url : Option String := none
  api_key : Option SecretStr := none
  log_level : LogLevel := .INFO
  runner_groups : List BaseRunnerGroup := []
  timeout_runner : Nat := tdMinutes 15
  time_to_live : Option Nat := some (tdHours 12)
  healthcheck_interval : Nat := tdMinutes 15
  indexing_interval : Nat := tdHours 1
  github_base_url : Option String := some "https://api.github.com"
  github_webhook_secret : Option SecretStr := none
  github_token : Option SecretStr := none
  github_app_id : IntOrStr := .int 0
  github_private_key : SecretStr := ⟨""⟩
  github_installation_id : Int := 0
  github_client_id : Option String := none
  github_client_secret : SecretStr := ⟨""⟩
deriving DecidableEq, Repr

/-- A `Settings()` built with no arguments: every field keeps its default. -/
def defaultSettings : Settings := {}

/-- `Settings.app_install`: true iff `github_app_id`, `github_private_key`
and `github_installation_id` are all truthy. -/
def Settings.app_install (s : Settings) : Bool :=
  s.github_app_id.truthy && s.github_private_key.truthy
    && (s.github_installation_id != 0)

/-- pydantic `ConfigError`, raised with a message. -/
structure ConfigError where
  message : String
deriving DecidableEq, Repr

/-- The result type of `github_auth_strategy`:
`AppInstallationAuthStrategy | TokenAuthStrategy` from githubkit, carrying
the constructor arguments the source passes. -/
inductive AuthStrategy where
  | appInstallation (app_id : IntOrStr) (installation_id : Int)
      (private_key : String) (client_id : Option String)
      (client_secret : String)
  | token (tok : String)
deriving DecidableEq, Repr

/-- `Settings.github_auth_strategy`: prefer the app-installation strategy,
fall back to the token strategy, otherwise raise `ConfigError`. -/
def Settings.github_auth_strategy (s : Settings) :
    Except ConfigError AuthStrategy :=
  if s.app_install then
    .ok (.appInstallation s.github_app_id s.github_installation_id
      s.github_private_key.get_secret_value s.github_client_id
      s.github_client_secret.get_secret_value)
  else
    match s.github_token with
    | some t =>
        if t.truthy then .ok (.token t.get_secret_value)
        else .error ⟨"No github auth strategy configured"⟩
    | none => .error ⟨"No github auth strategy configured"⟩

/-- Whether an auth-strategy result is the app-installation strategy. -/
def isAppInstallStrategy : Except ConfigError AuthStrategy → Bool
  | .ok (.appInstallation _ _ _ _ _) => true
  | _ => false

/-- Whether an auth-strategy result is the bearer-token strategy. -/
def isTokenStrategy : Except ConfigError AuthStrategy → Bool
  | .ok (.token _) => true
  | _ => false

/-! ## Settings sources

`Settings.Config.customise_sources` returns the ordered tuple
`(init_settings, yaml_config_settings_source, env_settings,
file_secret_settings)`.  pydantic v1 `BaseSettings` consults the returned
sources with the first having the highest priority; each source yields a
mapping of field values.  A source is embedded as a map from keys to
optional values, and the yaml source is parameterized by the (optional)
parsed content of the config file named by the environment. -/

def SettingsSource : Type := String → Option String

/-- A source that produces no value for any key. -/
def emptySource : SettingsSource := fun _ => none

/-- `yaml_config_settings_source`: loads the yaml file when
`ConfigFile().config_file` is set, otherwise returns the empty mapping.
The parsed content of the file stands in for the file itself. -/
def yaml_config_settings_source (config_file : Option SettingsSource) :
    SettingsSource :=
  match config_file with
  | some parsed => parsed
  | none => emptySource

/-- `Settings.Config.customise_sources`: the ordered list of sources. -/
def customise_sources (config_file : Option SettingsSource)
    (init_settings env_settings file_secret_settings : SettingsSource) :
    List SettingsSource :=
  [init_settings, yaml_config_settings_source config_file,
    env_settings, file_secret_settings]

/-- Modelled from the spec: pydantic v1 `BaseSettings` merging of the
source list is not part of this excerpt; per the specification each source
produces a mapping of values and later sources do not override earlier
ones. -/
def mergeSources : List SettingsSource → SettingsSource
  | [] => fun _ => none
  | src :: rest => fun k =>
      match src k with
      | some v => some v
      | none => mergeSources rest k

/-- The field values a `Settings` construction sees, given the parsed
config file, the init arguments, the environment and the secret files. -/
def buildSettingsValues (config_file : Option SettingsSource)
    (init_settings env_settings file_secret_settings : SettingsSource) :
    SettingsSource :=
  mergeSources
    (customise_sources config_file init_settings env_settings
      file_secret_settings)

/-! ## GCP backend label handling

`runner_manager/backend/gcloud.py` is not part of this excerpt; its
`_sanitize_label_value` and `setup_labels` are modelled from the
specification and constrained by `tests/unit/backend/test_gcp.py`. -/

/-- A value appearing in a label mapping before sanitization: a string, an
integer, a float, or `None`. -/
inductive PyFloat where
  | nan
  | infinite
  | integral (n : Int)
  | fractional (intPart : Int) (fracDigits : String)
deriving DecidableEq, Repr

inductive LabelValue where
  | null
  | str (s : String)
  | int (n : Int)
  | float (x : PyFloat)
deriving DecidableEq, Repr

/-- The separator characters stripped from label ends. -/
def isSep (c : Char) : Bool := c = '-' || c = '_'

def dropLeadingSeps (l : List Char) : List Char := l.dropWhile isSep

def dropTrailingSeps (l : List Char) : List Char :=
  (l.reverse.dropWhile isSep).reverse

/-- Strip leading and trailing hyphens/underscores. -/
def stripSeps (s : String) : String :=
  String.mk (dropTrailingSeps (dropLeadingSeps s.data))

/-- Canonical printing of a numeric label value: a finite float with an
integral value prints like the integer (`42.0` and `42` both print `42`);
non-finite floats have no canonical form and are handled before
printing. -/
def canonicalNum : PyFloat → String
  | .nan => ""
  | .infinite => ""
  | .integral n => toString n
  | .fractional intPart fracDigits => toString intPart ++ "." ++ fracDigits

/-- Modelled from the spec: `GCPBackend._sanitize_label_value` is not part
of this excerpt.  Per the specification, non-finite numbers and `None` map
to the empty string, numerics are printed in canonical form, and leading
and trailing hyphens/underscores are stripped from the resulting string. -/
def sanitize_label_value : LabelValue → String
  | .null => ""
  | .str s => stripSeps s
  | .int n => stripSeps (toString n)
  | .float .nan => ""
  | .float .infinite => ""
  | .float x => stripSeps (canonicalNum x)

/-- The workflow-job webhook event as consumed by `setup_labels`: the
workflow name and the repository name recorded as labels. -/
structure WorkflowJobEventM where
  workflow : String
  repository : String
deriving DecidableEq, Repr

/-- The runner fields `setup_labels` reads. -/
structure RunnerM where
  status : String
  busy : Bool
deriving DecidableEq, Repr

def pyBoolStr (b : Bool) : String := if b then "true" else "false"

/-- Modelled from the spec: `GCPBackend.setup_labels` is not part of this
excerpt.  Per the specification and its tests it merges the configured
instance labels with the runner's `status` and `busy` labels, and, when a
webhook event is supplied, records the sanitized `workflow` and
`repository` labels; each value is sanitized. -/
def setup_labels (instanceLabels : List (String × String)) (r : RunnerM)
    (webhook : Option WorkflowJobEventM) : List (String × String) :=
  instanceLabels
    ++ [("status", sanitize_label_value (.str r.status)),
        ("busy", sanitize_label_value (.str (pyBoolStr r.busy)))]
    ++ (match webhook with
        | some w =>
            [("workflow", sanitize_label_value (.str w.workflow)),
             ("repository", sanitize_label_value (.str w.repository))]
        | none => [])

/-- Whether a label mapping has an entry for a key. -/
def hasLabelKey (labels : List (String × String)) (k : String) : Bool :=
  labels.any (fun kv => kv.1 == k)

/-! ## Example configurations used as witnesses -/

/-- Settings with the app-installation triple and a token both configured. -/
def appAndTokenSettings : Settings :=
  { github_app_id := .int 123, github_private_key := ⟨"pem"⟩,
    github_installation_id := 456, github_token := some ⟨"tok"⟩ }

/-- Settings whose app id keeps its falsy default while the other
app-installation fields and a token are set. -/
def zeroAppIdSettings : Settings :=
  { github_app_id := .int 0, github_private_key := ⟨"pem"⟩,
    github_installation_id := 7, github_token := some ⟨"tok"⟩ }

/-- A parsed yaml config file setting `name`. -/
def yamlEx : SettingsSource :=
  fun k => if k = "name" then some "from-yaml" else none

/-- An environment setting `name`. -/
def envEx : SettingsSource :=
  fun k => if k = "name" then some "from-env" else none

/-- Init (program-argument) settings setting `name`. -/
def initEx : SettingsSource :=
  fun k => if k = "name" then some "from-init" else none

/-! ## Helper lemmas -/

theorem dropWhile_idem {α : Type} (p : α → Bool) (l : List α) :
    (l.dropWhile p).dropWhile p = l.dropWhile p := by
  induction l with
  | nil => rfl
  | cons a t ih =>
      cases hp : p a with
      | true => simpa [List.dropWhile, hp] using ih
      | false => simp [List.dropWhile, hp]

theorem head_dropWhile_false {α : Type} (p : α → Bool) (l : List α)
    (c : α) (h : (l.dropWhile p).head? = some c) : p c = false := by
  induction l with
  | nil => simp [List.dropWhile] at h
  | cons a t ih =>
      cases hp : p a with
      | true =>
          rw [List.dropWhile_cons_of_pos hp] at h
          exact ih h
      | false =>
          rw [List.dropWhile_cons_of_neg (by simp [hp])] at h
          simp at h
          rw [← h]
          exact hp

theorem dropWhile_suffix_exists {α : Type} (p : α → Bool) (l : List α) :
    ∃ t, l = t ++ l.dropWhile p := by
  induction l with
  | nil => exact ⟨[], rfl⟩
  | cons a t ih =>
      cases hp : p a with
      | true =>
          obtain ⟨u, hu⟩ := ih
          refine ⟨a :: u, ?_⟩
          rw [List.dropWhile_cons_of_pos hp]
          simpa using hu
      | false =>
          refine ⟨[], ?_⟩
          rw [List.dropWhile_cons_of_neg (by simp [hp])]
          rfl

theorem dropLeading_eq_self (m : List Char)
    (h : ∀ c, m.head? = some c → isSep c = false) :
    dropLeadingSeps m = m := by
  cases m with
  | nil => rfl
  | cons a t =>
      unfold dropLeadingSeps
      rw [List.dropWhile_cons_of_neg (by simp [h a rfl])]

theorem dropTrailingSeps_idem (m : List Char) :
    dropTrailingSeps (dropTrailingSeps m) = dropTrailingSeps m := by
  unfold dropTrailingSeps
  rw [List.reverse_reverse, dropWhile_idem]

theorem dropTrailingSeps_decomp (m : List Char) :
    ∃ r, m = dropTrailingSeps m ++ r := by
  obtain ⟨t, ht⟩ := dropWhile_suffix_exists isSep m.reverse
  refine ⟨t.reverse, ?_⟩
  have h2 := congrArg List.reverse ht
  simpa [dropTrailingSeps] using h2

theorem dropLeading_dropTrailing (l : List Char) :
    dropLeadingSeps (dropTrailingSeps (dropLeadingSeps l))
      = dropTrailingSeps (dropLeadingSeps l) := by
  apply dropLeading_eq_self
  intro c hc
  obtain ⟨r, hr⟩ := dropTrailingSeps_decomp (dropLeadingSeps l)
  have hhead : (dropLeadingSeps l).head? = some c := by
    rw [hr]
    cases hdt : dropTrailingSeps (dropLeadingSeps l) with
    | nil => rw [hdt] at hc; simp at hc
    | cons b bs =>
        rw [hdt] at hc
        simp at hc
        simp [hc]
  exact head_dropWhile_false isSep l c hhead

theorem stripSeps_idem (s : String) :
    stripSeps (stripSeps s) = stripSeps s := by
  show String.mk (dropTrailingSeps (dropLeadingSeps
      (dropTrailingSeps (dropLeadingSeps s.data)))) = _
  rw [dropLeading_dropTrailing, dropTrailingSeps_idem]
  rfl

theorem dropTrailing_eq_self (m : List Char)
    (h : ∀ c, m.getLast? = some c → isSep c = false) :
    dropTrailingSeps m = m := by
  unfold dropTrailingSeps
  have hd : m.reverse.dropWhile isSep = m.reverse := by
    cases hm : m.reverse with
    | nil => rfl
    | cons a t =>
        have ha : isSep a = false := by
          apply h
          rw [← List.head?_reverse, hm]
          rfl
        rw [List.dropWhile_cons_of_neg (by simp [ha])]
  rw [hd, List.reverse_reverse]

theorem app_install_of_truthy (s : Settings)
    (h1 : s.github_app_id.truthy = true)
    (h2 : s.github_private_key.truthy = true)
    (h3 : s.github_installation_id ≠ 0) :
    s.app_install = true := by
  simp [Settings.app_install, h1, h2, h3]

theorem isApp_false_of_not_app_install (s : Settings)
    (h : s.app_install = false) :
    isAppInstallStrategy s.github_auth_strategy = false := by
  unfold Settings.github_auth_strategy
  rw [h]
  simp only [Bool.false_eq_true, if_false]
  cases s.github_token with
  | none => rfl
  | some t => cases htr : t.truthy <;> simp [htr, isAppInstallStrategy]

/-- **C1**: whenever `github_app_id`, `github_private_key` and
`github_installation_id` are all truthy, `github_auth_strategy` returns the
app-installation strategy (even when `github_token` is also set); the
bearer-token strategy is returned only when the app-installation triple is
not complete and `github_token` is truthy. -/
theorem github_auth_prefers_app_install (s : Settings) :
    ((s.github_app_id.truthy = true ∧ s.github_private_key.truthy = true ∧
        s.github_installation_id ≠ 0) →
      isAppInstallStrategy s.github_auth_strategy = true) ∧
    (isTokenStrategy s.github_auth_strategy = true →
      s.app_install = false ∧ optSecretTruthy s.github_token = true) := by
  constructor
  · rintro ⟨h1, h2, h3⟩
    have happ := app_install_of_truthy s h1 h2 h3
    simp [Settings.github_auth_strategy, happ, isAppInstallStrategy]
  · intro htok
    cases happ : s.app_install with
    | true =>
        rw [Settings.github_auth_strategy, happ] at htok
        simp [isTokenStrategy] at htok
    | false =>
        refine ⟨rfl, ?_⟩
        rw [Settings.github_auth_strategy, happ] at htok
        cases ht : s.github_token with
        | none => rw [ht] at htok; simp [isTokenStrategy] at htok
        | some t =>
            rw [ht] at htok
            cases htr : t.truthy with
            | true => simp [optSecretTruthy, ht, htr]
            | false => simp [isTokenStrategy, htr] at htok

/-- Witness for C1: with the full app-installation triple and a token both
configured, the app-installation strategy is selected. -/
theorem github_auth_prefers_app_install_witness :
    isAppInstallStrategy appAndTokenSettings.github_auth_strategy = true :=
  (github_auth_prefers_app_install appAndTokenSettings).1
    ⟨by decide, by decide, by decide⟩

/-- **C2**: with neither a truthy token nor a complete app-installation
triple, `github_auth_strategy` raises `ConfigError` (the failure the
specification names `ConfigMissingAuth`) and returns no strategy. -/
theorem github_auth_missing_raises (s : Settings)
    (h1 : s.app_install = false)
    (h2 : optSecretTruthy s.github_token = false) :
    s.github_auth_strategy
      = .error ⟨"No github auth strategy configured"⟩ := by
  rw [Settings.github_auth_strategy, h1]
  simp only [Bool.false_eq_true, if_false]
  cases ht : s.github_token with
  | none => rfl
  | some t =>
      rw [ht] at h2
      simp only [optSecretTruthy] at h2
      simp [h2]

/-- Witness for C2: default settings configure no auth at all. -/
theorem github_auth_missing_raises_witness :
    defaultSettings.github_auth_strategy
      = .error ⟨"No github auth strategy configured"⟩ :=
  github_auth_missing_raises defaultSettings (by decide) (by decide)

/-- **C7**: default durations (embedded as seconds): `timeout_runner` is 15
minutes, `time_to_live` is 12 hours, `healthcheck_interval` is 15 minutes
and `indexing_interval` is 1 hour. -/
theorem default_durations :
    defaultSettings.timeout_runner = 15 * 60 ∧
    defaultSettings.time_to_live = some (12 * 3600) ∧
    defaultSettings.healthcheck_interval = 15 * 60 ∧
    defaultSettings.indexing_interval = 3600 :=
  ⟨rfl, rfl, rfl, rfl⟩

/-- **C9**: the app-installation fields default to falsy values, and if any
of the three equals its falsy default then `app_install` is false and the
app-installation strategy is never selected, whatever the other fields. -/
theorem app_install_falsy_defaults :
    defaultSettings.github_app_id = .int 0 ∧
    defaultSettings.github_private_key = ⟨""⟩ ∧
    defaultSettings.github_installation_id = 0 ∧
    ∀ s : Settings,
      (s.github_app_id = .int 0 ∨ s.github_private_key = ⟨""⟩ ∨
        s.github_installation_id = 0) →
      s.app_install = false ∧
      isAppInstallStrategy s.github_auth_strategy = false := by
  refine ⟨rfl, rfl, rfl, ?_⟩
  intro s h
  have happ : s.app_install = false := by
    rcases h with h | h | h <;>
      simp [Settings.app_install, h, IntOrStr.truthy, SecretStr.truthy]
  exact ⟨happ, isApp_false_of_not_app_install s happ⟩

/-- Witness for C9: an app id left at its falsy default 0 disables
app-installation auth even with the other fields and a token set. -/
theorem app_install_falsy_defaults_witness :
    zeroAppIdSettings.app_install = false ∧
    isAppInstallStrategy zeroAppIdSettings.github_auth_strategy = false :=
  app_install_falsy_defaults.2.2.2 zeroAppIdSettings (Or.inl rfl)

/-- **C10**: unstated interface defaults: `name` is `runner-manager`,
`log_level` is `INFO`, `github_base_url` is `https://api.github.com`, and
with no config-file path set the yaml source yields the empty mapping. -/
theorem default_interface_values :
    defaultSettings.name = "runner-manager" ∧
    defaultSettings.log_level = .INFO ∧
    defaultSettings.github_base_url = some "https://api.github.com" ∧
    ∀ k, yaml_config_settings_source none k = none :=
  ⟨rfl, rfl, rfl, fun _ => rfl⟩

/-- **C5**: label sanitization maps null and non-finite numbers to the
empty string, prints numerics canonically (`42` and `42.0` both become
`42`), strips leading/trailing hyphens/underscores (`-test-` becomes
`test`), and leaves strings with no leading or trailing separator
unchanged. -/
theorem sanitize_label_value_spec :
    sanitize_label_value .null = "" ∧
    sanitize_label_value (.float .nan) = "" ∧
    sanitize_label_value (.float .infinite) = "" ∧
    sanitize_label_value (.int 42) = "42" ∧
    sanitize_label_value (.float (.integral 42)) = "42" ∧
    sanitize_label_value (.str "-test-") = "test" ∧
    sanitize_label_value (.str "test") = "test" ∧
    ∀ s : String,
      (s.data.head?.all fun c => !isSep c) = true →
      (s.data.getLast?.all fun c => !isSep c) = true →
      sanitize_label_value (.str s) = s := by
  refine ⟨rfl, rfl, rfl, by decide, by decide, by decide, by decide, ?_⟩
  intro s h1 h2
  show stripSeps s = s
  have hl : dropLeadingSeps s.data = s.data := by
    apply dropLeading_eq_self
    intro c hc
    rw [hc] at h1
    simpa using h1
  have ht : dropTrailingSeps s.data = s.data := by
    apply dropTrailing_eq_self
    intro c hc
    rw [hc] at h2
    simpa using h2
  show String.mk (dropTrailingSeps (dropLeadingSeps s.data)) = s
  rw [hl, ht]

/-- Witness for C5: an already-clean string is left unchanged. -/
theorem sanitize_label_value_spec_witness :
    sanitize_label_value (.str "abc") = "abc" :=
  sanitize_label_value_spec.2.2.2.2.2.2.2 "abc" (by decide) (by decide)

/-- **C6**: label sanitization is idempotent: sanitizing the (string)
result of a sanitization changes nothing, for every input value. -/
theorem sanitize_label_value_idem (x : LabelValue) :
    sanitize_label_value (.str (sanitize_label_value x))
      = sanitize_label_value x := by
  cases x with
  | null => decide
  | str s => exact stripSeps_idem s
  | int n => exact stripSeps_idem (toString n)
  | float f =>
      cases f with
      | nan => decide
      | infinite => decide
      | integral n => exact stripSeps_idem (toString n)
      | fractional intPart fracDigits =>
          exact stripSeps_idem (toString intPart ++ "." ++ fracDigits)

/-- **C8**: with a workflow-job webhook event supplied, the provider labels
produced by `setup_labels` contain `workflow` and `repository` entries;
with no webhook event (and the configured instance labels not using the
reserved `workflow` key) they contain no `workflow` entry. -/
theorem setup_labels_webhook_entries (cfg : List (String × String))
    (r : RunnerM) (w : WorkflowJobEventM)
    (hcfg : hasLabelKey cfg "workflow" = false) :
    hasLabelKey (setup_labels cfg r (some w)) "workflow" = true ∧
    hasLabelKey (setup_labels cfg r (some w)) "repository" = true ∧
    hasLabelKey (setup_labels cfg r none) "workflow" = false := by
  refine ⟨?_, ?_, ?_⟩
  · simp [setup_labels, hasLabelKey, List.any_append]
  · simp [setup_labels, hasLabelKey, List.any_append]
  · simp [setup_labels, hasLabelKey, List.any_append] at hcfg ⊢
    exact hcfg

/-- Witness for C8: a concrete backend configuration, runner and event. -/
theorem setup_labels_webhook_entries_witness :
    hasLabelKey
      (setup_labels [("key", "value")] ⟨"online", true⟩
        (some ⟨"ci-workflow", "octo-repo"⟩)) "workflow" = true ∧
    hasLabelKey
      (setup_labels [("key", "value")] ⟨"online", true⟩
        (some ⟨"ci-workflow", "octo-repo"⟩)) "repository" = true ∧
    hasLabelKey
      (setup_labels [("key", "value")] ⟨"online", true⟩ none)
        "workflow" = false :=
  setup_labels_webhook_entries [("key", "value")] ⟨"online", true⟩
    ⟨"ci-workflow", "octo-repo"⟩ (by decide)

/-- **C3 counterexample**: with `name` set both in the yaml file and in the
environment (and no init or secret values), the resulting value is the
yaml one, not the environment one: the yaml source precedes the
environment source in `customise_sources` and earlier sources win. -/
theorem env_does_not_override_yaml :
    yamlEx "name" = some "from-yaml" ∧
    envEx "name" = some "from-env" ∧
    buildSettingsValues (some yamlEx) emptySource envEx emptySource "name"
      = some "from-yaml" ∧
    buildSettingsValues (some yamlEx) emptySource envEx emptySource "name"
      ≠ some "from-env" := by
  refine ⟨rfl, rfl, rfl, by decide⟩

/-- **C3 (amended)**: for every configuration key set both in the yaml
config file and in the environment and not set by init settings, the YAML
value (not the environment value) appears in the resulting settings. -/
theorem yaml_overrides_env (cfg env init fs : SettingsSource)
    (k v w : String) (hinit : init k = none) (hyaml : cfg k = some v)
    (henv : env k = some w) :
    buildSettingsValues (some cfg) init env fs k = some v := by
  simp [buildSettingsValues, customise_sources, mergeSources,
    yaml_config_settings_source, hinit, hyaml]

/-- Witness for the amended C3. -/
theorem yaml_overrides_env_witness :
    buildSettingsValues (some yamlEx) emptySource envEx emptySource "name"
      = some "from-yaml" :=
  yaml_overrides_env yamlEx envEx emptySource emptySource "name"
    "from-yaml" "from-env" rfl rfl rfl

/-- **C4**: the sources are consulted in the order init settings, yaml
file, environment, secret files; a later source never overrides a value an
earlier source produced, and an init-settings value wins for every key. -/
theorem settings_source_ordering (cf : Option SettingsSource)
    (i e fs : SettingsSource) (k : String) :
    customise_sources cf i e fs
      = [i, yaml_config_settings_source cf, e, fs] ∧
    (∀ v, i k = some v → buildSettingsValues cf i e fs k = some v) ∧
    (i k = none → ∀ v, yaml_config_settings_source cf k = some v →
      buildSettingsValues cf i e fs k = some v) ∧
    (i k = none → yaml_config_settings_source cf k = none →
      ∀ v, e k = some v → buildSettingsValues cf i e fs k = some v) ∧
    (i k = none → yaml_config_settings_source cf k = none → e k = none →
      buildSettingsValues cf i e fs k = fs k) := by
  refine ⟨rfl, ?_, ?_, ?_, ?_⟩
  · intro v hv
    simp [buildSettingsValues, customise_sources, mergeSources, hv]
  · intro hi v hv
    simp [buildSettingsValues, customise_sources, mergeSources, hi, hv]
  · intro hi hy v hv
    simp [buildSettingsValues, customise_sources, mergeSources, hi, hy, hv]
  · intro hi hy he
    simp only [buildSettingsValues, customise_sources, mergeSources,
      hi, hy, he]
    cases hfs : fs k <;> simp [hfs]

/-- Witness for C4: init settings beat yaml, environment and secrets. -/
theorem settings_source_ordering_witness :
    buildSettingsValues (some yamlEx) initEx envEx emptySource "name"
      = some "from-init" :=
  (settings_source_ordering (some yamlEx) initEx envEx emptySource
    "name").2.1 "from-init" rfl
